import Mathlib

/-!
Shallow embedding of `cloudinit/sources/DataSourceOVF.py` (the OVF /
VMware-IMC datasource) and proofs about its specified behaviour.

Filesystem state is passed explicitly: a value `fs : String → Bool` answers
`os.path.exists` / `os.path.isfile` queries, and a directory listing is a
`List String` of file names.  Python dicts are modelled as association lists
with first-hit lookup; Python string methods are modelled over `String.data`.
Exceptions are modelled with `Except`; side effects of the customization
status protocol are modelled as an explicit trace of `Effect` values.
-/

/-- Python `str.startswith` on character lists: `charsStartWith p s` is true
iff `p` is an initial run of `s`. -/
def charsStartWith : List Char → List Char → Bool
  | [], _ => true
  | _ :: _, [] => false
  | p :: ps, c :: cs => p == c && charsStartWith ps cs

/-- Python `s.startswith(p)`. -/
def pyStartsWith (s p : String) : Bool := charsStartWith p.data s.data

/-- Python truthiness of an optional string (`None` and `""` are falsy). -/
def pyTruthy : Option String → Bool
  | none => false
  | some s => s ≠ ""

/-- `os.path.join(d, f)` for the simple case used by the source (no absolute
second component, no trailing separator on the first). -/
def joinPath (d f : String) : String := d ++ "/" ++ f

/-- Characters of `os.path.dirname`: everything strictly before the last
slash.  (Matches `os.path.dirname` on every path with a directory component,
the only shape the source applies it to.) -/
def dirnameChars : List Char → List Char
  | [] => []
  | c :: cs => if ('/' : Char) ∈ cs then c :: dirnameChars cs else []

/-- `os.path.dirname(p)` for paths with a directory component. -/
def dirname (p : String) : String := ⟨dirnameChars p.data⟩

/-- A scalar value held in a configuration dict: an int or a string. -/
inductive PyVal : Type where
  | vInt (n : Int)
  | vStr (s : String)
deriving DecidableEq

/-- Python `int()` applied to a string: an optional sign followed by one or
more decimal digits; anything else raises `ValueError` (here: `none`). -/
def pyIntOfStr (s : String) : Option Int :=
  match s.data with
  | [] => none
  | c :: rest =>
    let signed : Bool × List Char :=
      if c = '-' then (true, rest)
      else if c = '+' then (false, rest)
      else (false, c :: rest)
    if signed.2 = [] then none
    else if signed.2.all Char.isDigit then
      let n : Nat := signed.2.foldl (fun acc d => acc * 10 + (d.toNat - 48)) 0
      some (if signed.1 then -(n : Int) else (n : Int))
    else none

/-- Python `int()` applied to a config value (`int` passes through, strings
are parsed, failure is `ValueError` = `none`). -/
def pyInt : PyVal → Option Int
  | .vInt n => some n
  | .vStr s => pyIntOfStr s

/-- A configuration dict (`cfg`), `none` standing for Python `None`. -/
abbrev Cfg := Option (List (String × PyVal))

/-- `get_max_wait_from_cfg(cfg)` from the source.  Returns the resolved wait
together with a flag recording whether a warning was logged (the source logs
on `ValueError` and on a negative configured value). -/
def get_max_wait_from_cfg (cfg : Cfg) : Int × Bool :=
  let default_max_wait : Int := 15
  match cfg with
  | none => (default_max_wait, false)
  | some c =>
    if c = [] then (default_max_wait, false)
    else
      let v := (c.lookup "vmware_cust_file_max_wait").getD (PyVal.vInt default_max_wait)
      let parsed : Int × Bool :=
        match pyInt v with
        | some n => (n, false)
        | none => (default_max_wait, true)
      if parsed.1 < 0 then (default_max_wait, true) else parsed

/-- The interval actually slept by `wait_for_imc_cfg_file`: the loop first
replaces `naplen` by `1` whenever `maxwait <= naplen`. -/
def effNaplen (maxwait naplen : Nat) : Nat := if maxwait ≤ naplen then 1 else naplen

/-- The polling loop of `wait_for_imc_cfg_file`.  `present w` answers the
`os.path.isfile` probe made after `w` seconds of accumulated sleeping;
`waited` and `checks` accumulate slept time and probe count.  `fuel` bounds
the recursion; exhaustion returns `none` (the real loop would still be
running), while a real exit returns `some (found, waited, checks)`. -/
def waitGo (present : Nat → Bool) (maxwait nap waited checks fuel : Nat) :
    Option (Bool × Nat × Nat) :=
  if waited < maxwait then
    if present waited then
      some (true, waited, checks + 1)
    else
      match fuel with
      | 0 => none
      | Nat.succ f => waitGo present maxwait nap (waited + nap) (checks + 1) f
  else
    some (false, waited, checks)

/-- `wait_for_imc_cfg_file(filename, maxwait, naplen)`: poll until the file
appears or the budget elapses.  The result records whether the file was
found, total time slept, and the number of `isfile` probes made. -/
def wait_for_imc_cfg_file (present : Nat → Bool) (maxwait : Nat) (naplen : Nat := 5) :
    Option (Bool × Nat × Nat) :=
  waitGo present maxwait (effNaplen maxwait naplen) 0 0 maxwait

/-- Fields of a cached `DataSourceOVF` instance that its methods consult. -/
structure DataSourceOVFState where
  seed : Option String
  environment : Option String
  vmware_customization_supported : Bool
  vmware_cust_found : Bool

/-- `DataSourceOVF.check_instance_id(self, sys_cfg)`: the Delphix variant
unconditionally treats the instance id as unchanged. -/
def DataSourceOVF.check_instance_id
    (_self : DataSourceOVFState) (_sys_cfg : List (String × PyVal)) : Bool :=
  true

/-- `supported_seed_starts` of `DataSourceOVF`. -/
def DataSourceOVF.supported_seed_starts : List String := ["/", "file://"]

/-- `supported_seed_starts` of `DataSourceOVFNet`. -/
def DataSourceOVFNet.supported_seed_starts : List String := ["http://", "https://"]

/-- Resolved metadata: a dict of string keys and string values. -/
abbrev Metadata := List (String × String)

/-- Modelled from the spec: `util.mergemanydict` (defined in
`cloudinit/util.py`, outside this tree).  The spec fixes its tie-break via
the defaults merge, called as `mergemanydict([md, defaults])`: defaults are
merged "under everything already resolved — defaults never override
discovered values", so for a key present in several dicts the earliest
listed dict wins.  Merging two dicts keeps all of the first and only the
keys of the second that the first lacks. -/
def mergeTwoDicts (a b : Metadata) : Metadata :=
  a ++ b.filter (fun kv => (a.lookup kv.1).isNone)

/-- Modelled from the spec: fold of `mergeTwoDicts` over the listed dicts,
earliest dict winning every tie (see `mergeTwoDicts`). -/
def mergemanydict (ds : List Metadata) : Metadata :=
  ds.foldl mergeTwoDicts []

/-- The `seedfrom` step at the end of `DataSourceOVF._get_data`: when the
resolved metadata has a truthy `seedfrom` value, either abort (`none`,
i.e. `_get_data` returns `False`) because no supported scheme matches, or
fetch seeded metadata (`read_seeded`) and merge it with the resolved
metadata via `mergemanydict([md, md_seed])`. -/
def seedfrom_step (supported : List String) (md : Metadata)
    (read_seeded : String → Metadata) : Option Metadata :=
  match md.lookup "seedfrom" with
  | none => some md
  | some seedfrom =>
    if seedfrom ≠ "" then
      if supported.any (fun proto => pyStartsWith seedfrom proto) then
        some (mergemanydict [md, read_seeded seedfrom])
      else
        none
    else some md

/-- `VMWARE_IMC_DIR` from the source. -/
def VMWARE_IMC_DIR : String := "/var/run/vmware-imc"

/-- The two file-name fields of the parsed IMC `Config` that
`collect_imc_file_paths` consults. -/
structure ImcConfig where
  meta_data_name : Option String
  user_data_name : Option String

/-- `collect_imc_file_paths(cust_conf)`: resolve the metadata/userdata/nics
paths inside `VMWARE_IMC_DIR`.  `fs` answers `os.path.exists`.  A missing
declared metadata or userdata file raises `FileNotFoundError` (here:
`Except.error` carrying the message). -/
def collect_imc_file_paths (fs : String → Bool) (cust_conf : ImcConfig) :
    Except String (Option String × Option String × Option String) :=
  if pyTruthy cust_conf.meta_data_name then
    let md_path := joinPath VMWARE_IMC_DIR (cust_conf.meta_data_name.getD "")
    if fs md_path then
      if pyTruthy cust_conf.user_data_name then
        let ud_path := joinPath VMWARE_IMC_DIR (cust_conf.user_data_name.getD "")
        if fs ud_path then
          Except.ok (some md_path, some ud_path, none)
        else
          Except.error ("user data file is not found: " ++ ud_path)
      else
        Except.ok (some md_path, none, none)
    else
      Except.error ("meta data file is not found: " ++ md_path)
  else
    let nics_path := joinPath VMWARE_IMC_DIR "nics.txt"
    if fs nics_path then
      Except.ok (none, none, some nics_path)
    else
      Except.ok (none, none, none)

/-- Exactly one of two optional paths is non-null. -/
def exactlyOneSome (a b : Option String) : Bool := a.isSome != b.isSome

/-- `GuestCustStateEnum` values used by the source. -/
inductive GuestCustState : Type where
  | GUESTCUST_STATE_RUNNING
  | GUESTCUST_STATE_DONE
deriving DecidableEq

/-- The `GuestCustEventEnum` / `GuestCustErrorEnum` codes used by the source. -/
inductive GuestCustCode : Type where
  | GUESTCUST_EVENT_CUSTOMIZE_FAILED
  | GUESTCUST_EVENT_NETWORK_SETUP_FAILED
  | GUESTCUST_ERROR_SCRIPT_DISABLED
  | GUESTCUST_ERROR_WRONG_META_FORMAT
  | GUESTCUST_ERROR_SUCCESS
deriving DecidableEq

/-- One observable call on the VMware status channel or the filesystem made
by the error path of the workflow. -/
inductive Effect : Type where
  | setCustomizationStatus (st : GuestCustState) (code : GuestCustCode)
  | setGcStatus (msg : String)
  | delDir (path : String)
deriving DecidableEq

/-- `_raise_error_status(prefix, error, event, config_file, conf)`: report
`RUNNING` with the event code, push the prefix as a free-text status, delete
the IMC working directory, and re-raise the original error.  The result is
the ordered effect trace paired with the re-raised error. -/
def _raise_error_status (msgPrefix : String) (error : String) (event : GuestCustCode)
    (config_file : String) (_conf : ImcConfig) : List Effect × String :=
  ([Effect.setCustomizationStatus GuestCustState.GUESTCUST_STATE_RUNNING event,
    Effect.setGcStatus msgPrefix,
    Effect.delDir (dirname config_file)],
   error)

/-- The fragment of `DataSourceOVF._get_data` that resolves the IMC file
paths: a `FileNotFoundError` from `collect_imc_file_paths` is routed through
`_raise_error_status` with the `CUSTOMIZE_FAILED` event, and the resulting
exception propagates out of `_get_data` (an `Except.error` here), so the
remaining transports are never consulted. -/
def imcCollectStep (fs : String → Bool) (conf : ImcConfig) (configFilePath : String) :
    Except (List Effect × String) (Option String × Option String × Option String) :=
  match collect_imc_file_paths fs conf with
  | Except.ok r => Except.ok r
  | Except.error e =>
      Except.error
        (_raise_error_status "File(s) missing in directory" e
          GuestCustCode.GUESTCUST_EVENT_CUSTOMIZE_FAILED configFilePath conf)

/-- A value stored in a network-config record: a string or a string list. -/
inductive RVal : Type where
  | s (v : String)
  | l (v : List String)
deriving DecidableEq

/-- One network-config record (a Python dict). -/
abbrev NetRecord := List (String × RVal)

/-- The version-tagged network-config document. -/
structure NetworkConfig where
  version : Nat
  config : List NetRecord
deriving DecidableEq

/-- `get_network_config(nics, nameservers, search)`: append a single
`nameserver` record when either list is non-empty, and wrap in a version-1
document. -/
def get_network_config (nics : List NetRecord) (nameservers search : List String) :
    NetworkConfig :=
  let config_list :=
    if nameservers ≠ [] ∨ search ≠ [] then
      nics ++ [[("type", RVal.s "nameserver"),
                ("address", RVal.l nameservers),
                ("search", RVal.l search)]]
    else nics
  { version := 1, config := config_list }

/-- A record whose `type` field is `nameserver`. -/
def isNameserverRecord (r : NetRecord) : Bool :=
  r.lookup "type" == some (RVal.s "nameserver")

/-- The marker file name for a marker id: `".markerfile-" + markerid + ".txt"`. -/
def markerFileName (markerid : String) : String :=
  ".markerfile-" ++ markerid ++ ".txt"

/-- A file name the deletion loop of `setup_marker_files` matches
(`fname.startswith(".markerfile")`). -/
def isMarkerFile (f : String) : Bool := pyStartsWith f ".markerfile"

/-- `setup_marker_files(markerid, marker_dir)` on a directory listing:
delete every file whose name starts with `.markerfile`, then create the
(empty) marker file for `markerid`. -/
def setup_marker_files (markerid : String) (dirFiles : List String) : List String :=
  dirFiles.filter (fun f => !isMarkerFile f) ++ [markerFileName markerid]

/-- `check_marker_exists(markerid, marker_dir)` on a directory listing. -/
def check_marker_exists (markerid : Option String) (dirFiles : List String) : Bool :=
  if pyTruthy markerid then
    markerFileName (markerid.getD "") ∈ dirFiles
  else false

/-- A parsed DOM node: `localName` (text nodes have none), namespaced
attributes keyed by `(namespaceURI, name)`, and child nodes. -/
inductive XmlNode : Type where
  | elem (localName : Option String)
         (attrs : List ((String × String) × String))
         (children : List XmlNode)

/-- The `localName` of a node. -/
def XmlNode.localName : XmlNode → Option String
  | .elem n _ _ => n

/-- The attribute list of a node. -/
def XmlNode.attrs : XmlNode → List ((String × String) × String)
  | .elem _ a _ => a

/-- The child list of a node. -/
def XmlNode.children : XmlNode → List XmlNode
  | .elem _ _ c => c

/-- `node.attributes.getNamedItemNS(ns, name)`, yielding the value. -/
def getNamedItemNS (node : XmlNode) (ns name : String) : Option String :=
  node.attrs.lookup (ns, name)

/-- `find_child(node, filter_func)` from the source: the children matching
the filter (none when the node has no children). -/
def find_child (node : XmlNode) (filter_func : XmlNode → Bool) : List XmlNode :=
  node.children.filter filter_func

/-- How `get_properties` fails: `XmlError` for the three structural
validations, or an attribute access on a `Property` lacking the namespaced
`key`/`value` attribute (Python raises `AttributeError` there, since
`getNamedItemNS` returns `None`). -/
inductive GpError : Type where
  | xmlError (msg : String)
  | attrError
deriving DecidableEq

/-- The OVF environment namespace URI used for attribute lookup. -/
def envNsURI : String := "http://schemas.dmtf.org/ovf/environment/1"

/-- Python dict assignment `props[key] = val`: overwrite in place if the key
exists, otherwise append. -/
def dictInsert (d : List (String × String)) (k v : String) : List (String × String) :=
  if (d.lookup k).isSome then
    d.map (fun kv => if kv.1 = k then (k, v) else kv)
  else d ++ [(k, v)]

/-- The extraction loop of `get_properties` over the `Property` elements. -/
def extractProps : List XmlNode → List (String × String) →
    Except GpError (List (String × String))
  | [], props => Except.ok props
  | e :: rest, props =>
    match getNamedItemNS e envNsURI "key", getNamedItemNS e envNsURI "value" with
    | some k, some v => extractProps rest (dictInsert props k v)
    | _, _ => Except.error GpError.attrError

/-- `get_properties(contents)` on an already-parsed DOM: validate the root
is `Environment` with children and at least one `PropertySection` child,
then extract the key/value pairs of the first section. -/
def get_properties (dom : XmlNode) : Except GpError (List (String × String)) :=
  if dom.localName ≠ some "Environment" then
    Except.error (GpError.xmlError "No Environment Node")
  else if dom.children.isEmpty then
    Except.error (GpError.xmlError "No Child Nodes")
  else
    let propSections := find_child dom (fun n => n.localName == some "PropertySection")
    match propSections with
    | [] => Except.error (GpError.xmlError "No PropertySections")
    | ps0 :: _ =>
      let propElems := find_child ps0 (fun n => n.localName == some "Property")
      extractProps propElems []

/-- The three structural validations of `get_properties`, as one predicate:
root not named `Environment`, or no children, or no `PropertySection`
child. -/
def gpValidationFails (dom : XmlNode) : Bool :=
  dom.localName != some "Environment" ||
  dom.children.isEmpty ||
  (find_child dom (fun n => n.localName == some "PropertySection")).isEmpty

/-- One `Property` element carries both namespaced attributes. -/
def gpAttrsPresent (e : XmlNode) : Bool :=
  (getNamedItemNS e envNsURI "key").isSome &&
  (getNamedItemNS e envNsURI "value").isSome

/-- Every `Property` child of the first `PropertySection` carries both
namespaced attributes. -/
def gpAllAttrsPresent (dom : XmlNode) : Bool :=
  match find_child dom (fun n => n.localName == some "PropertySection") with
  | [] => true
  | ps0 :: _ =>
    (find_child ps0 (fun n => n.localName == some "Property")).all gpAttrsPresent

/-- The dict built by folding `props[key] = val` over `Property` elements,
skipping elements missing an attribute. -/
def gpFold (es : List XmlNode) (props : List (String × String)) :
    List (String × String) :=
  es.foldl
    (fun props e =>
      match getNamedItemNS e envNsURI "key", getNamedItemNS e envNsURI "value" with
      | some k, some v => dictInsert props k v
      | _, _ => props)
    props

/-- The pairs the spec says are extracted: the dict built from the
`key`/`value` attributes of the first section's `Property` children. -/
def gpSpecPairs (dom : XmlNode) : List (String × String) :=
  match find_child dom (fun n => n.localName == some "PropertySection") with
  | [] => []
  | ps0 :: _ => gpFold (find_child ps0 (fun n => n.localName == some "Property")) []

/-! ## Helper lemmas -/

theorem charsStartWith_append (p l r : List Char) (h : charsStartWith p l = true) :
    charsStartWith p (l ++ r) = true := by
  induction p generalizing l with
  | nil => simp [charsStartWith]
  | cons c cs ih =>
    cases l with
    | nil => simp [charsStartWith] at h
    | cons d ds =>
      simp only [charsStartWith, List.cons_append, Bool.and_eq_true] at h ⊢
      exact ⟨h.1, ih ds h.2⟩

theorem isMarkerFile_markerFileName (id : String) :
    isMarkerFile (markerFileName id) = true := by
  show charsStartWith ".markerfile".data (markerFileName id).data = true
  have h1 : (markerFileName id).data =
      ".markerfile-".data ++ (id.data ++ ".txt".data) := by
    show ((".markerfile-" ++ id) ++ ".txt").data = _
    rw [String.data_append, String.data_append, List.append_assoc]
  rw [h1]
  exact charsStartWith_append _ _ _ (by decide)

theorem lookup_append_of_some {β : Type} (a b : List (String × β)) (k : String)
    {v : β} (h : a.lookup k = some v) : (a ++ b).lookup k = some v := by
  induction a with
  | nil => simp [List.lookup] at h
  | cons kv rest ih =>
    rw [List.cons_append]
    cases kv with
    | mk k0 v0 =>
      by_cases hk : k == k0
      · simpa [List.lookup, hk] using by simpa [List.lookup, hk] using h
      · simp only [List.lookup, hk] at h ⊢
        exact ih h

theorem lookup_append_of_none {β : Type} (a b : List (String × β)) (k : String)
    (h : a.lookup k = none) : (a ++ b).lookup k = b.lookup k := by
  induction a with
  | nil => simp
  | cons kv rest ih =>
    rw [List.cons_append]
    cases kv with
    | mk k0 v0 =>
      by_cases hk : k == k0
      · simp [List.lookup, hk] at h
      · simp only [List.lookup, hk] at h ⊢
        exact ih h

theorem lookup_filter_isNone {β : Type} (a b : List (String × β)) (k : String)
    (h : a.lookup k = none) :
    (b.filter (fun kv => (a.lookup kv.1).isNone)).lookup k = b.lookup k := by
  induction b with
  | nil => simp
  | cons kv rest ih =>
    cases kv with
    | mk k0 v0 =>
      by_cases hk : k == k0
      · have hkeq : k = k0 := eq_of_beq hk
        have : (a.lookup k0).isNone = true := by rw [← hkeq, h]; rfl
        simp only [List.filter_cons, this, if_pos, List.lookup, hk]
      · by_cases hf : (a.lookup k0).isNone = true
        · simp only [List.filter_cons, hf, if_pos, List.lookup, hk]
          exact ih
        · simp only [List.filter_cons, hf]
          rw [if_neg (by simp [hf])]
          simp only [List.lookup, hk]
          exact ih

/-! ## Claims C7 and C10: bounded waiting for the IMC config file -/

theorem waitGo_never_found (present : Nat → Bool) (maxwait nap : Nat)
    (hnever : ∀ t, present t = false) :
    ∀ fuel waited checks, maxwait ≤ waited + fuel * nap → waited < maxwait + nap →
      ∃ w c, waitGo present maxwait nap waited checks fuel = some (false, w, c) ∧
        w < maxwait + nap := by
  intro fuel
  induction fuel with
  | zero =>
    intro waited checks hbound hlt
    refine ⟨waited, checks, ?_, hlt⟩
    simp only [Nat.zero_mul, Nat.add_zero] at hbound
    rw [waitGo, if_neg (by omega)]
  | succ f ih =>
    intro waited checks hbound hlt
    by_cases hw : waited < maxwait
    · have hrec := ih (waited + nap) (checks + 1)
        (by
          have : (f + 1) * nap = f * nap + nap := Nat.succ_mul f nap
          omega)
        (by omega)
      obtain ⟨w, c, hgo, hwb⟩ := hrec
      refine ⟨w, c, ?_, hwb⟩
      rw [waitGo, if_pos hw, hnever waited]
      exact hgo
    · refine ⟨waited, checks, ?_, hlt⟩
      rw [waitGo, if_neg hw]

/-- C7 (amended): for positive `naplen`, if the file never appears,
`wait_for_imc_cfg_file` terminates, returns not-found, and sleeps at most
`maxwait` plus one poll interval; the effective poll interval is at most
`naplen`, and it never exceeds the wait budget whenever `maxwait` is
positive (at `maxwait = 0` the interval is `1` but the loop never polls). -/
theorem c7_wait_bounded_amended (present : Nat → Bool) (maxwait naplen : Nat)
    (hnap : 1 ≤ naplen) (hnever : ∀ t, present t = false) :
    ∃ w c, wait_for_imc_cfg_file present maxwait naplen = some (false, w, c) ∧
      w ≤ maxwait + naplen ∧
      effNaplen maxwait naplen ≤ naplen ∧
      (1 ≤ maxwait → effNaplen maxwait naplen ≤ maxwait) := by
  have hnap1 : 1 ≤ effNaplen maxwait naplen := by
    unfold effNaplen
    split <;> omega
  have hnaple : effNaplen maxwait naplen ≤ naplen := by
    unfold effNaplen
    split <;> omega
  obtain ⟨w, c, hgo, hwb⟩ :=
    waitGo_never_found present maxwait (effNaplen maxwait naplen) hnever
      maxwait 0 0
      (by
        have := Nat.le_mul_of_pos_right maxwait (show 0 < effNaplen maxwait naplen from hnap1)
        omega)
      (by omega)
  refine ⟨w, c, hgo, by omega, hnaple, ?_⟩
  intro hmw
  unfold effNaplen
  split <;> omega

/-- C7 (counterexample to the claim as stated): at `maxwait = 0` — a value
the configuration validation accepts — with `naplen = 5`, the effective poll
interval is `1`, which exceeds the wait budget `0`, so "the effective poll
interval never exceeds the wait budget" fails for this non-negative
`maxwait`. -/
theorem c7_counterexample :
    effNaplen 0 5 = 1 ∧ ¬ effNaplen 0 5 ≤ 0 ∧
    wait_for_imc_cfg_file (fun _ => false) 0 5 = some (false, 0, 0) := by
  refine ⟨rfl, by decide, rfl⟩

theorem c7_witness :
    (1 ≤ 3 ∧ ∀ t : Nat, (fun _ : Nat => false) t = false) ∧
    (∃ w c, wait_for_imc_cfg_file (fun _ : Nat => false) 7 3 = some (false, w, c) ∧
      w ≤ 7 + 3 ∧ effNaplen 7 3 ≤ 3 ∧ (1 ≤ 7 → effNaplen 7 3 ≤ 7)) :=
  ⟨⟨by decide, fun _ => rfl⟩,
   c7_wait_bounded_amended (fun _ => false) 7 3 (by decide) (fun _ => rfl)⟩

/-- C10: when `maxwait` is `0` (accepted by `get_max_wait_from_cfg`, which
returns `(0, no warning)` for a configured `0`), the wait loop returns
not-found immediately, having slept `0` and made `0` file-existence checks —
even when `present` says the file is already there. -/
theorem c10_maxwait_zero (present : Nat → Bool) (naplen : Nat) :
    wait_for_imc_cfg_file present 0 naplen = some (false, 0, 0) ∧
    get_max_wait_from_cfg (some [("vmware_cust_file_max_wait", PyVal.vInt 0)]) =
      (0, false) :=
  ⟨rfl, by decide⟩

/-! ## Claim C8: max-wait configuration parsing -/

/-- C8: `get_max_wait_from_cfg` yields `30` for a configured `30`; the
default `15` with a warning for `-5`; the default for the non-numeric
`"abc"`; and the default (no warning) for an empty or absent config. -/
theorem c8_max_wait_values :
    get_max_wait_from_cfg (some [("vmware_cust_file_max_wait", PyVal.vInt 30)]) =
      (30, false) ∧
    get_max_wait_from_cfg (some [("vmware_cust_file_max_wait", PyVal.vInt (-5))]) =
      (15, true) ∧
    get_max_wait_from_cfg (some [("vmware_cust_file_max_wait", PyVal.vStr "abc")]) =
      (15, true) ∧
    get_max_wait_from_cfg (some []) = (15, false) ∧
    get_max_wait_from_cfg none = (15, false) := by
  refine ⟨?_, ?_, ?_, ?_, ?_⟩ <;> decide

/-! ## Claim C9: instance id assumed stable -/

/-- C9: `check_instance_id` returns `True` for every cached datasource state
and every `sys_cfg`, so a cached datasource is always restored. -/
theorem c9_check_instance_id (self : DataSourceOVFState)
    (sys_cfg : List (String × PyVal)) :
    DataSourceOVF.check_instance_id self sys_cfg = true :=
  rfl

/-! ## Claim C5: marker store set is idempotent, at most one marker file -/

/-- C5: `setup_marker_files` first deletes every existing marker file and
then creates exactly one marker file named from the id: the result of a set
contains exactly one marker file, that file is the one named from the id,
and setting twice with the same id equals setting once. -/
theorem c5_marker_idempotent (d : List String) (id : String) :
    setup_marker_files id (setup_marker_files id d) = setup_marker_files id d ∧
    ((setup_marker_files id d).filter isMarkerFile).length = 1 ∧
    markerFileName id ∈ setup_marker_files id d ∧
    (∀ f ∈ setup_marker_files id d, isMarkerFile f = true → f = markerFileName id) := by
  have hm := isMarkerFile_markerFileName id
  refine ⟨?_, ?_, ?_, ?_⟩
  · unfold setup_marker_files
    rw [List.filter_append, List.filter_filter]
    simp [hm]
  · unfold setup_marker_files
    rw [List.filter_append, List.filter_filter]
    simp [hm]
  · exact List.mem_append_right _ (List.mem_singleton.mpr rfl)
  · intro f hf hmf
    rcases List.mem_append.mp hf with hl | hr
    · have := List.of_mem_filter hl
      simp [hmf] at this
    · exact List.mem_singleton.mp hr

/-! ## Claim C4: trailing nameserver record -/

/-- C4: for a list of NIC records (none of which is itself a `nameserver`
record), `get_network_config` produces a version-1 document; when the
nameserver list or the search list is non-empty the config list is the NIC
list plus exactly one trailing `nameserver` record, and when both are empty
it contains no `nameserver` record. -/
theorem c4_nameserver_record (nics : List NetRecord) (ns search : List String)
    (h : ∀ r ∈ nics, isNameserverRecord r = false) :
    (get_network_config nics ns search).version = 1 ∧
    ((ns ≠ [] ∨ search ≠ []) →
      (get_network_config nics ns search).config =
        nics ++ [[("type", RVal.s "nameserver"),
                  ("address", RVal.l ns), ("search", RVal.l search)]] ∧
      ((get_network_config nics ns search).config.filter isNameserverRecord).length
        = 1) ∧
    (ns = [] → search = [] →
      ((get_network_config nics ns search).config.filter isNameserverRecord).length
        = 0) := by
  have hnil : nics.filter isNameserverRecord = [] := by
    apply List.filter_eq_nil_iff.mpr
    intro r hr
    simp [h r hr]
  refine ⟨rfl, ?_, ?_⟩
  · intro hns
    unfold get_network_config
    rw [if_pos hns]
    refine ⟨rfl, ?_⟩
    rw [List.filter_append, hnil]
    rfl
  · intro h1 h2
    subst h1; subst h2
    unfold get_network_config
    rw [if_neg (by simp)]
    rw [hnil]
    rfl

theorem c4_witness :
    (∀ r ∈ [[("type", RVal.s "physical")]], isNameserverRecord r = false) ∧
    ((get_network_config [[("type", RVal.s "physical")]] ["8.8.8.8"] []).config =
       [[("type", RVal.s "physical")]] ++
         [[("type", RVal.s "nameserver"),
           ("address", RVal.l ["8.8.8.8"]), ("search", RVal.l [])]] ∧
     ((get_network_config [[("type", RVal.s "physical")]] ["8.8.8.8"] []).config.filter
        isNameserverRecord).length = 1) :=
  ⟨by decide,
   (c4_nameserver_record [[("type", RVal.s "physical")]] ["8.8.8.8"] []
      (by decide)).2.1 (Or.inl (by decide))⟩

/-! ## Claim C1: which of the resolved IMC paths are non-null -/

/-- C1 (counterexample to the claim as stated): with no metadata filename
declared and no `nics.txt` in the IMC directory, `collect_imc_file_paths`
succeeds with all three paths null, so `metadataPath` and `nicsPath` are
both null — "exactly one non-null" fails (the docstring's own case 4). -/
theorem c1_counterexample :
    collect_imc_file_paths (fun _ => false) ⟨none, none⟩ =
      Except.ok (none, none, none) ∧
    exactlyOneSome none none = false :=
  ⟨rfl, rfl⟩

/-- C1 (amended): at most one of `{metadataPath, nicsPath}` is non-null;
when the IMC config declares a metadata filename, `metadataPath` is non-null
and `nicsPath` is null; otherwise `metadataPath` is null and `nicsPath` is
non-null exactly when `nics.txt` exists in the IMC directory (both are null
when it does not). -/
theorem c1_imc_file_set_amended (fs : String → Bool) (conf : ImcConfig)
    (r : Option String × Option String × Option String)
    (hok : collect_imc_file_paths fs conf = Except.ok r) :
    (¬(r.1.isSome = true ∧ r.2.2.isSome = true)) ∧
    (pyTruthy conf.meta_data_name = true → r.1.isSome = true ∧ r.2.2 = none) ∧
    (pyTruthy conf.meta_data_name = false →
      r.1 = none ∧
      (fs (joinPath VMWARE_IMC_DIR "nics.txt") = true →
        r.2.2 = some (joinPath VMWARE_IMC_DIR "nics.txt")) ∧
      (fs (joinPath VMWARE_IMC_DIR "nics.txt") = false → r.2.2 = none)) := by
  unfold collect_imc_file_paths at hok
  by_cases hmd : pyTruthy conf.meta_data_name = true
  · rw [if_pos hmd] at hok
    by_cases hfs : fs (joinPath VMWARE_IMC_DIR (conf.meta_data_name.getD "")) = true
    · rw [if_pos hfs] at hok
      by_cases hud : pyTruthy conf.user_data_name = true
      · rw [if_pos hud] at hok
        by_cases hfsu : fs (joinPath VMWARE_IMC_DIR (conf.user_data_name.getD "")) = true
        · rw [if_pos hfsu] at hok
          simp only [Except.ok.injEq] at hok
          subst hok
          refine ⟨by simp, fun _ => ⟨rfl, rfl⟩, fun hc => absurd hmd (by simp [hc])⟩
        · rw [if_neg hfsu] at hok
          cases hok
      · rw [if_neg hud] at hok
        simp only [Except.ok.injEq] at hok
        subst hok
        refine ⟨by simp, fun _ => ⟨rfl, rfl⟩, fun hc => absurd hmd (by simp [hc])⟩
    · rw [if_neg hfs] at hok
      cases hok
  · rw [if_neg hmd] at hok
    have hmd' : pyTruthy conf.meta_data_name = false := by
      cases hp : pyTruthy conf.meta_data_name
      · rfl
      · exact absurd hp hmd
    by_cases hnics : fs (joinPath VMWARE_IMC_DIR "nics.txt") = true
    · rw [if_pos hnics] at hok
      simp only [Except.ok.injEq] at hok
      subst hok
      refine ⟨by simp, fun hc => absurd hc hmd, fun _ =>
        ⟨rfl, fun _ => rfl, fun hc => absurd hnics (by simp [hc])⟩⟩
    · rw [if_neg hnics] at hok
      simp only [Except.ok.injEq] at hok
      subst hok
      exact ⟨by simp, fun hc => absurd hc hmd, fun _ =>
        ⟨rfl, fun hc => absurd hc hnics, fun _ => rfl⟩⟩

theorem c1_witness :
    collect_imc_file_paths (fun _ => true) ⟨some "metadata.yaml", none⟩ =
      Except.ok (some (joinPath VMWARE_IMC_DIR "metadata.yaml"), none, none) ∧
    (some (joinPath VMWARE_IMC_DIR "metadata.yaml")).isSome = true ∧
    (none : Option String) = none :=
  ⟨rfl,
   ((c1_imc_file_set_amended (fun _ => true) ⟨some "metadata.yaml", none⟩
       (some (joinPath VMWARE_IMC_DIR "metadata.yaml"), none, none) rfl).2.1
      (by decide)).1,
   ((c1_imc_file_set_amended (fun _ => true) ⟨some "metadata.yaml", none⟩
       (some (joinPath VMWARE_IMC_DIR "metadata.yaml"), none, none) rfl).2.1
      (by decide)).2⟩

/-! ## Claim C3: missing declared IMC files are a hard failure -/

/-- C3: when the IMC config declares a metadata filename whose file is
absent (or, alongside it, a userdata filename whose file is absent),
`collect_imc_file_paths` raises a missing-file error, and the workflow
fragment reports `RUNNING` with the customize-failed event, pushes the
context prefix as a free-text status, deletes the IMC working directory
(the directory of the config file), and re-raises the same error — an
`Except.error`, so the remaining transports are never consulted. -/
theorem c3_missing_file_error_flow (fs : String → Bool) (conf : ImcConfig)
    (cfgPath : String)
    (hmd : pyTruthy conf.meta_data_name = true)
    (hmiss : fs (joinPath VMWARE_IMC_DIR (conf.meta_data_name.getD "")) = false ∨
      (fs (joinPath VMWARE_IMC_DIR (conf.meta_data_name.getD "")) = true ∧
       pyTruthy conf.user_data_name = true ∧
       fs (joinPath VMWARE_IMC_DIR (conf.user_data_name.getD "")) = false)) :
    ∃ e, collect_imc_file_paths fs conf = Except.error e ∧
      imcCollectStep fs conf cfgPath = Except.error
        ([Effect.setCustomizationStatus GuestCustState.GUESTCUST_STATE_RUNNING
            GuestCustCode.GUESTCUST_EVENT_CUSTOMIZE_FAILED,
          Effect.setGcStatus "File(s) missing in directory",
          Effect.delDir (dirname cfgPath)], e) := by
  have step : ∀ e, collect_imc_file_paths fs conf = Except.error e →
      imcCollectStep fs conf cfgPath = Except.error
        ([Effect.setCustomizationStatus GuestCustState.GUESTCUST_STATE_RUNNING
            GuestCustCode.GUESTCUST_EVENT_CUSTOMIZE_FAILED,
          Effect.setGcStatus "File(s) missing in directory",
          Effect.delDir (dirname cfgPath)], e) := by
    intro e hcol
    unfold imcCollectStep
    rw [hcol]
    rfl
  rcases hmiss with hmiss | ⟨hfs, hud, hudmiss⟩
  · refine ⟨"meta data file is not found: " ++
        joinPath VMWARE_IMC_DIR (conf.meta_data_name.getD ""), ?_, ?_⟩
    · unfold collect_imc_file_paths
      rw [if_pos hmd, if_neg (by simp [hmiss])]
    · apply step
      unfold collect_imc_file_paths
      rw [if_pos hmd, if_neg (by simp [hmiss])]
  · refine ⟨"user data file is not found: " ++
        joinPath VMWARE_IMC_DIR (conf.user_data_name.getD ""), ?_, ?_⟩
    · unfold collect_imc_file_paths
      rw [if_pos hmd, if_pos hfs, if_pos hud, if_neg (by simp [hudmiss])]
    · apply step
      unfold collect_imc_file_paths
      rw [if_pos hmd, if_pos hfs, if_pos hud, if_neg (by simp [hudmiss])]

theorem c3_witness :
    pyTruthy ((⟨some "md.yaml", none⟩ : ImcConfig).meta_data_name) = true ∧
    dirname "/var/run/vmware-imc/cust.cfg" = "/var/run/vmware-imc" ∧
    (∃ e, collect_imc_file_paths (fun _ => false) ⟨some "md.yaml", none⟩ =
        Except.error e ∧
      imcCollectStep (fun _ => false) ⟨some "md.yaml", none⟩
          "/var/run/vmware-imc/cust.cfg" =
        Except.error
          ([Effect.setCustomizationStatus GuestCustState.GUESTCUST_STATE_RUNNING
              GuestCustCode.GUESTCUST_EVENT_CUSTOMIZE_FAILED,
            Effect.setGcStatus "File(s) missing in directory",
            Effect.delDir (dirname "/var/run/vmware-imc/cust.cfg")], e)) :=
  ⟨by decide, by decide,
   c3_missing_file_error_flow (fun _ => false) ⟨some "md.yaml", none⟩
     "/var/run/vmware-imc/cust.cfg" (by decide) (Or.inl rfl)⟩

/-! ## Claim C2: seedfrom redirection and merge direction -/

theorem mergeTwoDicts_nil (a : Metadata) : mergeTwoDicts [] a = a := by
  simp [mergeTwoDicts, List.lookup]

theorem mergemanydict_pair (a b : Metadata) :
    mergemanydict [a, b] = mergeTwoDicts a b := by
  unfold mergemanydict
  simp only [List.foldl]
  rw [mergeTwoDicts_nil]

/-- C2 (counterexample to the claim as stated): with resolved metadata
holding `seedfrom = "/seed"` and `k = "resolved"`, and the seed location
yielding `k = "seedval"`, the merged metadata keeps `"resolved"` for `k` —
the seed-fetched value does NOT win the tie. -/
theorem c2_counterexample :
    seedfrom_step DataSourceOVF.supported_seed_starts
        [("seedfrom", "/seed"), ("k", "resolved")] (fun _ => [("k", "seedval")]) =
      some [("seedfrom", "/seed"), ("k", "resolved")] ∧
    (mergemanydict [[("seedfrom", "/seed"), ("k", "resolved")],
        [("k", "seedval")]]).lookup "k" = some "resolved" ∧
    (mergemanydict [[("seedfrom", "/seed"), ("k", "resolved")],
        [("k", "seedval")]]).lookup "k" ≠ some "seedval" := by
  refine ⟨by decide, by decide, by decide⟩

/-- C2 (amended): when the resolved metadata has a non-empty `seedfrom`
value starting with a supported scheme, the run fetches seeded metadata
and merges it via `mergemanydict([md, md_seed])`, where for every key
present in both the already-resolved value wins the tie and keys only in
the seed data are added; when no supported scheme matches, the run aborts
(reports no data). -/
theorem c2_seedfrom_amended (supported : List String) (md : Metadata)
    (read_seeded : String → Metadata) (seedfrom : String)
    (hsf : md.lookup "seedfrom" = some seedfrom)
    (hne : seedfrom ≠ "") :
    (supported.any (fun proto => pyStartsWith seedfrom proto) = true →
      seedfrom_step supported md read_seeded =
        some (mergemanydict [md, read_seeded seedfrom]) ∧
      (∀ k v, md.lookup k = some v →
        (mergemanydict [md, read_seeded seedfrom]).lookup k = some v) ∧
      (∀ k, md.lookup k = none →
        (mergemanydict [md, read_seeded seedfrom]).lookup k =
          (read_seeded seedfrom).lookup k)) ∧
    (supported.any (fun proto => pyStartsWith seedfrom proto) = false →
      seedfrom_step supported md read_seeded = none) := by
  constructor
  · intro hany
    refine ⟨?_, ?_, ?_⟩
    · unfold seedfrom_step
      rw [hsf]
      simp only [if_pos hne, hany, if_pos]
    · intro k v hk
      rw [mergemanydict_pair]
      exact lookup_append_of_some md _ k hk
    · intro k hk
      rw [mergemanydict_pair]
      unfold mergeTwoDicts
      rw [lookup_append_of_none md _ k hk]
      exact lookup_filter_isNone md (read_seeded seedfrom) k hk
  · intro hany
    unfold seedfrom_step
    rw [hsf]
    simp only [if_pos hne, hany]
    rfl

theorem c2_witness :
    (([("seedfrom", "file:///seed"), ("k", "resolved")] : Metadata).lookup
        "seedfrom" = some "file:///seed") ∧
    ("file:///seed" ≠ "") ∧
    seedfrom_step DataSourceOVF.supported_seed_starts
        [("seedfrom", "file:///seed"), ("k", "resolved")] (fun _ => [("n", "new")]) =
      some (mergemanydict [[("seedfrom", "file:///seed"), ("k", "resolved")],
        [("n", "new")]]) :=
  ⟨by decide, by decide,
   ((c2_seedfrom_amended DataSourceOVF.supported_seed_starts
       [("seedfrom", "file:///seed"), ("k", "resolved")] (fun _ => [("n", "new")])
       "file:///seed" (by decide) (by decide)).1 (by decide)).1⟩

/-! ## Claim C6: OVF environment parsing -/

theorem extractProps_ok (es : List XmlNode) :
    ∀ props, es.all gpAttrsPresent = true →
      extractProps es props = Except.ok (gpFold es props) := by
  induction es with
  | nil => intro props _; rfl
  | cons e rest ih =>
    intro props hall
    rw [List.all_cons, Bool.and_eq_true] at hall
    obtain ⟨he, hrest⟩ := hall
    unfold gpAttrsPresent at he
    rw [Bool.and_eq_true, Option.isSome_iff_exists, Option.isSome_iff_exists] at he
    obtain ⟨⟨k, hk⟩, ⟨v, hv⟩⟩ := he
    simp only [extractProps, gpFold, List.foldl]
    rw [hk, hv]
    exact ih (dictInsert props k v) hrest

theorem extractProps_err (es : List XmlNode) :
    ∀ props, es.all gpAttrsPresent = false →
      extractProps es props = Except.error GpError.attrError := by
  induction es with
  | nil => intro props h; simp at h
  | cons e rest ih =>
    intro props hall
    rw [List.all_cons] at hall
    cases hk : getNamedItemNS e envNsURI "key" with
    | none =>
      simp only [extractProps]
      rw [hk]
    | some k =>
      cases hv : getNamedItemNS e envNsURI "value" with
      | none =>
        simp only [extractProps]
        rw [hk, hv]
      | some v =>
        have hrest : rest.all gpAttrsPresent = false := by
          simpa [gpAttrsPresent, hk, hv] using hall
        simp only [extractProps]
        rw [hk, hv]
        exact ih (dictInsert props k v) hrest

/-- C6 (counterexample to the claim as stated): a document whose root is
`Environment`, with a `PropertySection` child holding one `Property` that
carries no namespaced attributes, passes all three validations yet the
parser raises an attribute error instead of returning that Property as a
key/value pair. -/
theorem c6_counterexample :
    get_properties
        (XmlNode.elem (some "Environment") []
          [XmlNode.elem (some "PropertySection") []
            [XmlNode.elem (some "Property") [] []]]) =
      Except.error GpError.attrError ∧
    gpValidationFails
        (XmlNode.elem (some "Environment") []
          [XmlNode.elem (some "PropertySection") []
            [XmlNode.elem (some "Property") [] []]]) = false :=
  ⟨rfl, rfl⟩

/-- C6 (amended): parsing raises a parse error (`XmlError`) and extracts
zero properties whenever the root is not named `Environment`, or has no
children, or has no `PropertySection` child; otherwise, provided every
`Property` child of the first `PropertySection` carries the namespaced
`key`/`value` attributes, it returns their key/value pairs — a `Property`
missing one raises an attribute error, not a parse error. -/
theorem c6_get_properties_amended (dom : XmlNode) :
    (gpValidationFails dom = true →
      ∃ m, get_properties dom = Except.error (GpError.xmlError m)) ∧
    (gpValidationFails dom = false → gpAllAttrsPresent dom = true →
      get_properties dom = Except.ok (gpSpecPairs dom)) ∧
    (gpValidationFails dom = false → gpAllAttrsPresent dom = false →
      get_properties dom = Except.error GpError.attrError) := by
  by_cases hA : dom.localName = some "Environment"
  · by_cases hB : dom.children.isEmpty = true
    · have hv : gpValidationFails dom = true := by
        simp [gpValidationFails, hB]
      refine ⟨fun _ => ⟨"No Child Nodes", ?_⟩,
        fun hvf => absurd hv (by simp [hvf]),
        fun hvf => absurd hv (by simp [hvf])⟩
      unfold get_properties
      rw [if_neg (by simp [hA]), if_pos hB]
    · cases hps : find_child dom (fun n => n.localName == some "PropertySection") with
      | nil =>
        have hv : gpValidationFails dom = true := by
          simp [gpValidationFails, hps]
        refine ⟨fun _ => ⟨"No PropertySections", ?_⟩,
          fun hvf => absurd hv (by simp [hvf]),
          fun hvf => absurd hv (by simp [hvf])⟩
        unfold get_properties
        rw [if_neg (by simp [hA]), if_neg hB]
        simp only [hps]
      | cons ps0 rest =>
        have hgp : get_properties dom =
            extractProps (find_child ps0 (fun n => n.localName == some "Property")) [] := by
          unfold get_properties
          rw [if_neg (by simp [hA]), if_neg hB]
          simp only [hps]
        have hv : gpValidationFails dom = false := by
          simp [gpValidationFails, hA, hps, List.isEmpty_iff] at hB ⊢
          exact hB
        have hall : gpAllAttrsPresent dom =
            (find_child ps0 (fun n => n.localName == some "Property")).all
              gpAttrsPresent := by
          unfold gpAllAttrsPresent
          simp only [hps]
        have hpairs : gpSpecPairs dom =
            gpFold (find_child ps0 (fun n => n.localName == some "Property")) [] := by
          unfold gpSpecPairs
          simp only [hps]
        refine ⟨fun hvt => absurd hv (by simp [hvt]), ?_, ?_⟩
        · intro _ hattrs
          rw [hall] at hattrs
          rw [hgp, hpairs]
          exact extractProps_ok _ [] hattrs
        · intro _ hattrs
          rw [hall] at hattrs
          rw [hgp]
          exact extractProps_err _ [] hattrs
  · have hv : gpValidationFails dom = true := by
      simp [gpValidationFails, hA]
    refine ⟨fun _ => ⟨"No Environment Node", ?_⟩,
      fun hvf => absurd hv (by simp [hvf]),
      fun hvf => absurd hv (by simp [hvf])⟩
    unfold get_properties
    rw [if_pos hA]

theorem c6_witness :
    gpValidationFails
        (XmlNode.elem (some "Environment") []
          [XmlNode.elem (some "PropertySection") []
            [XmlNode.elem (some "Property")
              [((envNsURI, "key"), "instance-id"), ((envNsURI, "value"), "iid-1")]
              []]]) = false ∧
    gpAllAttrsPresent
        (XmlNode.elem (some "Environment") []
          [XmlNode.elem (some "PropertySection") []
            [XmlNode.elem (some "Property")
              [((envNsURI, "key"), "instance-id"), ((envNsURI, "value"), "iid-1")]
              []]]) = true ∧
    get_properties
        (XmlNode.elem (some "Environment") []
          [XmlNode.elem (some "PropertySection") []
            [XmlNode.elem (some "Property")
              [((envNsURI, "key"), "instance-id"), ((envNsURI, "value"), "iid-1")]
              []]]) =
      Except.ok (gpSpecPairs
        (XmlNode.elem (some "Environment") []
          [XmlNode.elem (some "PropertySection") []
            [XmlNode.elem (some "Property")
              [((envNsURI, "key"), "instance-id"), ((envNsURI, "value"), "iid-1")]
              []]])) :=
  ⟨rfl, rfl,
   (c6_get_properties_amended
      (XmlNode.elem (some "Environment") []
        [XmlNode.elem (some "PropertySection") []
          [XmlNode.elem (some "Property")
            [((envNsURI, "key"), "instance-id"), ((envNsURI, "value"), "iid-1")]
            []]])).2.1 rfl rfl⟩
